import Mathlib

/-!
Shallow embedding of src/src/components/MapView.tsx.

The component builds an OpenLayers map with one WMTS raster tile layer and
two GeoJSON vector layers, styles school point features with a circle whose
radius depends on the student count and whose fill colour depends on the
ownership string, and shows a tooltip overlay on pointer move.

Numbers held by feature attributes are modelled by a JavaScript-number type
over exact rationals with explicit non-finite values; the radius computation
lives in the reals (Real.sqrt models Math.sqrt), with Option ℝ where none
models NaN (Math.sqrt of a negative is NaN, and Math.min / Math.max / *
propagate NaN).  String lowercasing is modelled character-wise, which agrees
with JavaScript toLowerCase on the ASCII data the component compares against.
-/

/-- JavaScript number value as stored in a feature attribute: either a finite
value (modelled exactly by a rational) or one of the non-finite values. -/
inductive JSNum where
  | nan : JSNum
  | posInf : JSNum
  | negInf : JSNum
  | finite : ℚ → JSNum
deriving DecidableEq

/-- Number.isFinite from MapView.tsx line 111. -/
def JSNum.isFiniteNum : JSNum → Bool
  | .finite _ => true
  | _ => false

/-- SchoolProps from MapView.tsx lines 65-69: the three feature attributes the
component consumes, each possibly absent (undefined / null). -/
structure SchoolProps where
  navn : Option String
  antall_elever : Option JSNum
  eierforhold : Option String
deriving DecidableEq

/-- Effective student count, MapView.tsx lines 110-111:
eleverRaw = props.antall_elever ?? 0 and then
elever = Number.isFinite(eleverRaw) ? Number(eleverRaw) : 0.
An absent attribute and a non-finite number both collapse to 0. -/
def eleverOf (p : SchoolProps) : ℚ :=
  match p.antall_elever with
  | some (.finite x) => x
  | _ => 0

/-- Math.sqrt on a finite double: NaN (modelled by none) on negative input,
otherwise the real square root. -/
noncomputable def jsSqrt (x : ℚ) : Option ℝ :=
  if x < 0 then none else some (Real.sqrt (x : ℝ))

/-- JavaScript multiplication of finite doubles, propagating NaN. -/
noncomputable def jsMulNum : Option ℝ → Option ℝ → Option ℝ
  | some x, some y => some (x * y)
  | _, _ => none

/-- Math.min on two arguments, which returns NaN when either argument is NaN. -/
noncomputable def jsMinNum : Option ℝ → Option ℝ → Option ℝ
  | some x, some y => some (min x y)
  | _, _ => none

/-- Math.max on two arguments, which returns NaN when either argument is NaN. -/
noncomputable def jsMaxNum : Option ℝ → Option ℝ → Option ℝ
  | some x, some y => some (max x y)
  | _, _ => none

/-- Circle radius, MapView.tsx line 113:
radius = Math.max(4, Math.min(22, Math.sqrt(elever) * 0.9)). -/
noncomputable def radiusOf (p : SchoolProps) : Option ℝ :=
  jsMaxNum (some 4) (jsMinNum (some 22) (jsMulNum (jsSqrt (eleverOf p)) (some 0.9)))

/-- String.prototype.toLowerCase, modelled character-wise (ASCII-accurate). -/
def jsToLower (s : String) : String :=
  String.mk (s.data.map Char.toLower)

/-- Decision procedure for one string starting with another, on character
lists. -/
def startsWithList : List Char → List Char → Bool
  | _, [] => true
  | [], _ :: _ => false
  | c :: cs, q :: qs => c == q && startsWithList cs qs

/-- Decision procedure for contiguous-substring containment on character
lists, scanning every suffix. -/
def hasSubList : List Char → List Char → Bool
  | [], pat => startsWithList [] pat
  | c :: cs, pat => startsWithList (c :: cs) pat || hasSubList cs pat

/-- String.prototype.includes: contiguous substring containment. -/
def jsIncludes (s pat : String) : Bool :=
  hasSubList s.data pat.data

/-- Lowercased ownership string, MapView.tsx line 114:
eier = (props.eierforhold ?? "").toLowerCase(). -/
def eierOf (p : SchoolProps) : String :=
  jsToLower (p.eierforhold.getD "")

/-- Ownership test, MapView.tsx line 115: eier.includes("privat"). -/
def isPrivat (p : SchoolProps) : Bool :=
  jsIncludes (eierOf p) "privat"

/-- Fill colour choice, MapView.tsx lines 117-119. -/
def fillColorOf (p : SchoolProps) : String :=
  if isPrivat p then "rgba(255,165,0,0.9)" else "rgba(0,140,255,0.9)"

/-- Circle style record produced by the style function, MapView.tsx
lines 121-127 (radius, fill colour, stroke colour, stroke width). -/
structure CircleStyleSpec where
  radius : Option ℝ
  fillColor : String
  strokeColor : String
  strokeWidth : ℚ

/-- schoolStyle from MapView.tsx lines 106-128, as a pure function of the
feature attributes it reads. -/
noncomputable def schoolStyle (p : SchoolProps) : CircleStyleSpec :=
  ⟨radiusOf p, fillColorOf p, "rgba(255,255,255,0.95)", 2⟩

/-- Radius as the spec phrases it: the value sqrt(n) * 0.9 clipped below at
the minimum 4 and above at the maximum 22. -/
noncomputable def specRadius (n : ℚ) : ℝ :=
  min 22 (max 4 (Real.sqrt (n : ℝ) * 0.9))

/-- Containment of the word privat in any letter case, stated independently
of the code: some contiguous substring of s lowercases to privat. -/
def hasPrivatAnyCase (s : String) : Prop :=
  ∃ t : List Char, t <:+: s.data ∧ t.map Char.toLower = "privat".data

/-- WMTS source configuration, MapView.tsx lines 52-62. -/
structure WmtsSourceSpec where
  url : String
  layer : String
  matrixSet : String
  format : String
  styleId : String
  wrapX : Bool
deriving DecidableEq

/-- createKartverketWmtsSource from MapView.tsx lines 27-63: the single
raster tile source the component ever creates. -/
def kartverketWmtsSource : WmtsSourceSpec :=
  ⟨"https://cache.kartverket.no/v1/wmts/1.0.0/topo/default/3857/{TileMatrix}/{TileRow}/{TileCol}.png",
   "topo", "3857", "image/png", "default", true⟩

/-- Map layer, either a raster tile layer over a WMTS source or a vector
layer loading a GeoJSON file. -/
inductive LayerSpec where
  | tile : WmtsSourceSpec → LayerSpec
  | vector : String → LayerSpec
deriving DecidableEq

/-- Tile-layer discriminator. -/
def LayerSpec.isTile : LayerSpec → Bool
  | .tile _ => true
  | .vector _ => false

/-- Layer list handed to the Map constructor, MapView.tsx lines 94-133 and
142-151: the background tile layer then the two vector layers. -/
def mapViewLayers : List LayerSpec :=
  [ .tile kartverketWmtsSource,
    .vector "geojson/bydeler.geojson",
    .vector "geojson/skoler.geojson" ]

/-- Event subscription made during component setup. -/
structure EventSub where
  target : String
  event : String
deriving DecidableEq

/-- Event subscriptions the component registers, MapView.tsx lines 155 and
167: a once-listener on the bydeler source and the pointermove handler. -/
def mapViewEventSubs : List EventSub :=
  [ ⟨"bydelerSource", "change"⟩, ⟨"map", "pointermove"⟩ ]

/-- Formalisation of the claimed fallback rule: a backup tile layer exists
and some subscription listens for tile load errors. -/
def tileFallbackConfigured : Prop :=
  2 ≤ (mapViewLayers.filter LayerSpec.isTile).length ∧
    ∃ s ∈ mapViewEventSubs, s.event = "tileloaderror"

/-- Map coordinate of a pointer event, modelled exactly. -/
def Coord : Type := ℚ × ℚ

/-- Tooltip content written into the popup element, MapView.tsx lines
182-187, abstracted to the data interpolated into the HTML: the name, the
raw student-count attribute (rendered as a question mark when absent) and
the raw ownership attribute (likewise). -/
structure PopupContent where
  headerName : String
  elever : Option JSNum
  eier : Option String
deriving DecidableEq

/-- Tooltip data built from a feature whose navn attribute is present. -/
def popupContentOf (p : SchoolProps) : PopupContent :=
  ⟨p.navn.getD "", p.antall_elever, p.eierforhold⟩

/-- Overlay position together with the popup element content; position none
means the tooltip is hidden (overlay.setPosition(undefined)), content none
means nothing was ever written into the element. -/
structure TooltipState where
  position : Option Coord
  content : Option PopupContent

/-- Pointermove handler, MapView.tsx lines 167-190.  contentElem records
whether popupContentRef.current is non-null (the handler returns without
touching anything when it is null); featAt is the feature found under the
pixel, if any.  A missing or empty navn is falsy in JavaScript, so both
clear the overlay position. -/
def pointermoveHandler (contentElem : Bool) (featAt : Option SchoolProps)
    (c : Coord) (st : TooltipState) : TooltipState :=
  if contentElem then
    match featAt with
    | none => ⟨none, st.content⟩
    | some p =>
      match p.navn with
      | none => ⟨none, st.content⟩
      | some name =>
        if name = "" then ⟨none, st.content⟩
        else ⟨some c, some (popupContentOf p)⟩
  else st

/-- Observable interaction with the mounted component: a style evaluation of
the feature at an index, or a pointer move hitting the feature at an index
(or nothing). -/
inductive MapEvent where
  | styleEval : Nat → MapEvent
  | pointerMove : Bool → Option Nat → Coord → MapEvent

/-- Component state: the loaded features and the tooltip overlay. -/
structure MapViewState where
  features : List SchoolProps
  tooltip : TooltipState

/-- One interaction step.  A style evaluation runs schoolStyle on the
feature and returns the produced style; a pointer move runs the handler on
the tooltip state.  Neither writes to the feature list. -/
noncomputable def stepMapView (st : MapViewState) (e : MapEvent) :
    MapViewState × Option CircleStyleSpec :=
  match e with
  | .styleEval i => (st, (st.features[i]?).map schoolStyle)
  | .pointerMove ce hit c =>
      (⟨st.features,
        pointermoveHandler ce (hit.bind fun i => st.features[i]?) c st.tooltip⟩,
       none)

/-- Runs a sequence of interaction events from a state. -/
noncomputable def runMapView (st : MapViewState) (evs : List MapEvent) : MapViewState :=
  evs.foldl (fun s e => (stepMapView s e).1) st

/-- Characterisation of startsWithList as list-prefix. -/
theorem startsWithList_iff (pat l : List Char) :
    startsWithList l pat = true ↔ pat <+: l := by
  induction pat generalizing l with
  | nil => simp [startsWithList, List.nil_prefix]
  | cons q qs ih =>
    cases l with
    | nil => simp [startsWithList, List.prefix_nil]
    | cons c cs =>
      simp [startsWithList, ih, List.cons_prefix_cons, Bool.and_eq_true, @eq_comm _ c q]

/-- Characterisation of hasSubList as list-infix containment. -/
theorem hasSubList_iff (l pat : List Char) :
    hasSubList l pat = true ↔ pat <:+: l := by
  induction l with
  | nil => simp [hasSubList, startsWithList_iff, List.prefix_nil, List.infix_nil]
  | cons c cs ih =>
    rw [hasSubList, Bool.or_eq_true, startsWithList_iff, ih, List.infix_cons_iff]

/-- Infix containment in a character-wise lowercased list is containment of a
substring that lowercases to the pattern. -/
theorem infix_lower_iff (pat s : List Char) :
    pat <:+: s.map Char.toLower ↔ ∃ t, t <:+: s ∧ t.map Char.toLower = pat := by
  constructor
  · rintro ⟨u, v, huv⟩
    have h1 : List.map Char.toLower s = u ++ (pat ++ v) := by
      rw [← huv, List.append_assoc]
    obtain ⟨s₁, s₂, hs, hm1, hm2⟩ := List.map_eq_append_iff.mp h1
    obtain ⟨s₃, s₄, hs', hm3, hm4⟩ := List.map_eq_append_iff.mp hm2
    exact ⟨s₃, ⟨s₁, s₄, by rw [hs, hs', List.append_assoc]⟩, hm3⟩
  · rintro ⟨t, ht, rfl⟩
    exact List.IsInfix.map Char.toLower ht

/-- Evaluated form of the radius when the effective count is non-negative. -/
theorem radiusOf_eq_of_nonneg (p : SchoolProps) (h : 0 ≤ eleverOf p) :
    radiusOf p = some (max 4 (min 22 (Real.sqrt ((eleverOf p : ℚ) : ℝ) * 0.9))) := by
  unfold radiusOf jsSqrt
  rw [if_neg (not_lt.mpr h)]
  rfl

/-- Clamping from below after clamping from above equals the reverse order
for the constants 4 and 22. -/
theorem clamp_order_comm (a : ℝ) : max 4 (min 22 a) = min 22 (max 4 a) := by
  rw [max_min_distrib_left]
  norm_num

/-- C1 (amended): for every feature whose effective student count is
non-negative the computed circle radius is a real value between 4 and 22. -/
theorem C1_radius_within_bounds (p : SchoolProps) (h : 0 ≤ eleverOf p) :
    ∃ r : ℝ, (schoolStyle p).radius = some r ∧ 4 ≤ r ∧ r ≤ 22 := by
  refine ⟨max 4 (min 22 (Real.sqrt ((eleverOf p : ℚ) : ℝ) * 0.9)), ?_,
    le_max_left _ _, max_le (by norm_num) (min_le_left _ _)⟩
  exact radiusOf_eq_of_nonneg p h

/-- Witness for C1 at a feature with no attributes. -/
theorem C1_radius_within_bounds_witness :
    (0 : ℚ) ≤ eleverOf ⟨none, none, none⟩ ∧
      ∃ r : ℝ, (schoolStyle ⟨none, none, none⟩).radius = some r ∧ 4 ≤ r ∧ r ≤ 22 :=
  ⟨by norm_num [eleverOf],
   C1_radius_within_bounds ⟨none, none, none⟩ (by norm_num [eleverOf])⟩

/-- Counterexample to C1 as frozen: a finite negative student count makes the
radius NaN (modelled none), which is not a real value between 4 and 22. -/
theorem C1_counterexample_negative_count :
    ¬ ∃ r : ℝ, (schoolStyle ⟨none, some (JSNum.finite (-1)), none⟩).radius = some r ∧
      4 ≤ r ∧ r ≤ 22 := by
  have h : radiusOf ⟨none, some (JSNum.finite (-1)), none⟩ = none := by
    norm_num [radiusOf, eleverOf, jsSqrt, jsMulNum, jsMinNum, jsMaxNum]
  rintro ⟨r, hr, -, -⟩
  rw [show (schoolStyle ⟨none, some (JSNum.finite (-1)), none⟩).radius
      = radiusOf ⟨none, some (JSNum.finite (-1)), none⟩ from rfl, h] at hr
  exact Option.noConfusion hr

/-- C2: on a finite non-negative count n the code radius equals the spec
phrase clamp(sqrt(n) * 0.9, 4, 22). -/
theorem C2_radius_matches_spec_clamp (p : SchoolProps) (n : ℚ)
    (h : p.antall_elever = some (JSNum.finite n)) (hn : 0 ≤ n) :
    (schoolStyle p).radius = some (specRadius n) := by
  have he : eleverOf p = n := by simp [eleverOf, h]
  show radiusOf p = some (specRadius n)
  rw [radiusOf_eq_of_nonneg p (by rw [he]; exact hn), he, specRadius,
    clamp_order_comm]

/-- Witness for C2 at student count 9. -/
theorem C2_radius_matches_spec_clamp_witness :
    (schoolStyle ⟨none, some (JSNum.finite 9), none⟩).radius = some (specRadius 9) :=
  C2_radius_matches_spec_clamp ⟨none, some (JSNum.finite 9), none⟩ 9 rfl (by norm_num)

/-- C3: ownership privat yields the orange fill and ownership offentlig the
blue fill. -/
theorem C3_fill_color_by_ownership (p : SchoolProps) :
    (p.eierforhold = some "privat" → (schoolStyle p).fillColor = "rgba(255,165,0,0.9)") ∧
    (p.eierforhold = some "offentlig" → (schoolStyle p).fillColor = "rgba(0,140,255,0.9)") := by
  constructor
  · intro h
    have hp : isPrivat p = true := by
      unfold isPrivat eierOf
      rw [h]
      decide
    simp [schoolStyle, fillColorOf, hp]
  · intro h
    have hp : isPrivat p = false := by
      unfold isPrivat eierOf
      rw [h]
      decide
    simp [schoolStyle, fillColorOf, hp]

/-- Witness for C3 at the two exact ownership strings. -/
theorem C3_fill_color_by_ownership_witness :
    (schoolStyle ⟨none, none, some "privat"⟩).fillColor = "rgba(255,165,0,0.9)" ∧
    (schoolStyle ⟨none, none, some "offentlig"⟩).fillColor = "rgba(0,140,255,0.9)" :=
  ⟨(C3_fill_color_by_ownership ⟨none, none, some "privat"⟩).1 rfl,
   (C3_fill_color_by_ownership ⟨none, none, some "offentlig"⟩).2 rfl⟩

/-- C5: a missing antall_elever is treated as count 0 giving radius 4, and a
missing eierforhold is treated as the empty string giving the blue fill. -/
theorem C5_missing_attribute_defaults (p : SchoolProps) :
    (p.antall_elever = none → eleverOf p = 0 ∧ (schoolStyle p).radius = some 4) ∧
    (p.eierforhold = none → eierOf p = "" ∧ (schoolStyle p).fillColor = "rgba(0,140,255,0.9)") := by
  constructor
  · intro h
    have he : eleverOf p = 0 := by simp [eleverOf, h]
    refine ⟨he, ?_⟩
    show radiusOf p = some 4
    rw [radiusOf_eq_of_nonneg p (by rw [he]), he]
    norm_num [Real.sqrt_zero]
  · intro h
    have he : eierOf p = "" := by simp [eierOf, h, jsToLower]
    refine ⟨he, ?_⟩
    have hp : isPrivat p = false := by
      unfold isPrivat
      rw [he]
      decide
    simp [schoolStyle, fillColorOf, hp]

/-- Witness for C5 at a feature with no attributes at all. -/
theorem C5_missing_attribute_defaults_witness :
    (eleverOf ⟨none, none, none⟩ = 0 ∧ (schoolStyle ⟨none, none, none⟩).radius = some 4) ∧
    (eierOf ⟨none, none, none⟩ = "" ∧
      (schoolStyle ⟨none, none, none⟩).fillColor = "rgba(0,140,255,0.9)") :=
  ⟨(C5_missing_attribute_defaults ⟨none, none, none⟩).1 rfl,
   (C5_missing_attribute_defaults ⟨none, none, none⟩).2 rfl⟩

/-- C4 (amended): the component creates exactly one tile layer, over the
Kartverket WMTS source, and subscribes only to the bydeler-source change
event and the map pointermove event, so no tile-error handler and no backup
tile layer exist and no visibility switch can occur on a tile load failure. -/
theorem C4_single_tile_source_no_fallback :
    (mapViewLayers.filter LayerSpec.isTile) = [LayerSpec.tile kartverketWmtsSource] ∧
    ∀ s ∈ mapViewEventSubs, s.event = "change" ∨ s.event = "pointermove" := by
  decide

/-- Counterexample to C4 as frozen: the claimed fallback configuration (a
backup tile layer plus a tile-load-error subscription) does not exist in the
component setup. -/
theorem C4_counterexample_no_fallback : ¬ tileFallbackConfigured := by
  unfold tileFallbackConfigured
  decide

/-- Step of the interaction system never changes the feature list. -/
theorem stepMapView_preserves_features (st : MapViewState) (e : MapEvent) :
    ((stepMapView st e).1).features = st.features := by
  cases e <;> rfl

/-- C6: feature attributes are never mutated: any sequence of style
evaluations and pointer moves leaves every feature's attributes unchanged. -/
theorem C6_features_never_mutated (st : MapViewState) (evs : List MapEvent) :
    (runMapView st evs).features = st.features := by
  induction evs generalizing st with
  | nil => rfl
  | cons e evs ih =>
    rw [show runMapView st (e :: evs) = runMapView ((stepMapView st e).1) evs from rfl,
      ih, stepMapView_preserves_features]

/-- C7 (amended): the pointermove handler, when the popup content element
exists, places the overlay at the event coordinate with the feature's name,
count and ownership as content whenever the hit feature has a non-empty
navn, and clears the overlay position when nothing is hit or navn is missing
or empty; only change and pointermove subscriptions are registered. -/
theorem C7_pointermove_tooltip (fa : Option SchoolProps) (c : Coord) (st : TooltipState) :
    (∀ p name, fa = some p → p.navn = some name → name ≠ "" →
      pointermoveHandler true fa c st = ⟨some c, some (popupContentOf p)⟩) ∧
    (fa = none → pointermoveHandler true fa c st = ⟨none, st.content⟩) ∧
    (∀ p, fa = some p → (p.navn = none ∨ p.navn = some "") →
      pointermoveHandler true fa c st = ⟨none, st.content⟩) ∧
    EventSub.mk "map" "pointermove" ∈ mapViewEventSubs := by
  refine ⟨?_, ?_, ?_, by decide⟩
  · rintro p name rfl hn hne
    simp [pointermoveHandler, hn, hne]
  · rintro rfl
    rfl
  · rintro p rfl hn
    rcases hn with hn | hn <;> simp [pointermoveHandler, hn]

/-- Witness for C7: a hit on a named feature shows the tooltip at the event
coordinate, and a miss hides it. -/
theorem C7_pointermove_tooltip_witness :
    pointermoveHandler true (some ⟨some "Skole A", some (JSNum.finite 100), some "privat"⟩)
        (1, 2) ⟨none, none⟩
      = ⟨some (1, 2), some (popupContentOf ⟨some "Skole A", some (JSNum.finite 100), some "privat"⟩)⟩ ∧
    pointermoveHandler true none (1, 2) ⟨none, none⟩ = ⟨none, none⟩ :=
  ⟨(C7_pointermove_tooltip (some ⟨some "Skole A", some (JSNum.finite 100), some "privat"⟩)
      (1, 2) ⟨none, none⟩).1 ⟨some "Skole A", some (JSNum.finite 100), some "privat"⟩
      "Skole A" rfl rfl (by decide),
   (C7_pointermove_tooltip none (1, 2) ⟨none, none⟩).2.1 rfl⟩

/-- Counterexample to C7 as frozen: no click subscription exists, and a hit
feature carrying a navn attribute that is the empty string has its overlay
position cleared rather than placed at the event coordinate. -/
theorem C7_counterexample_click_and_empty_navn :
    (∀ s ∈ mapViewEventSubs, s.event ≠ "click" ∧ s.event ≠ "singleclick") ∧
    (pointermoveHandler true (some ⟨some "", none, none⟩) (1, 2) ⟨none, none⟩).position
      ≠ some (1, 2) := by
  refine ⟨by decide, ?_⟩
  rw [show (pointermoveHandler true (some ⟨some "", none, none⟩) (1, 2)
      ⟨none, none⟩).position = none from rfl]
  exact fun hne => Option.noConfusion hne

/-- C8: the style function is pure: features agreeing on antall_elever and
eierforhold receive the same radius and the same fill colour. -/
theorem C8_style_function_pure (p q : SchoolProps)
    (h1 : p.antall_elever = q.antall_elever) (h2 : p.eierforhold = q.eierforhold) :
    (schoolStyle p).radius = (schoolStyle q).radius ∧
    (schoolStyle p).fillColor = (schoolStyle q).fillColor := by
  constructor
  · show radiusOf p = radiusOf q
    rw [radiusOf, radiusOf, show eleverOf p = eleverOf q from by rw [eleverOf, eleverOf, h1]]
  · show fillColorOf p = fillColorOf q
    rw [fillColorOf, fillColorOf, show isPrivat p = isPrivat q from by
      rw [isPrivat, isPrivat, eierOf, eierOf, h2]]

/-- Witness for C8 at two features differing only in their name. -/
theorem C8_style_function_pure_witness :
    (schoolStyle ⟨some "A", some (JSNum.finite 5), some "privat"⟩).radius
      = (schoolStyle ⟨some "B", some (JSNum.finite 5), some "privat"⟩).radius ∧
    (schoolStyle ⟨some "A", some (JSNum.finite 5), some "privat"⟩).fillColor
      = (schoolStyle ⟨some "B", some (JSNum.finite 5), some "privat"⟩).fillColor :=
  C8_style_function_pure ⟨some "A", some (JSNum.finite 5), some "privat"⟩
    ⟨some "B", some (JSNum.finite 5), some "privat"⟩ rfl rfl

/-- C9: the radius is monotone non-decreasing in a finite non-negative
student count. -/
theorem C9_radius_monotone (p q : SchoolProps) (m n : ℚ)
    (hp : p.antall_elever = some (JSNum.finite m))
    (hq : q.antall_elever = some (JSNum.finite n))
    (hm : 0 ≤ m) (hmn : m ≤ n) :
    ∃ rm rn : ℝ, (schoolStyle p).radius = some rm ∧
      (schoolStyle q).radius = some rn ∧ rm ≤ rn := by
  have hem : eleverOf p = m := by simp [eleverOf, hp]
  have hen : eleverOf q = n := by simp [eleverOf, hq]
  have hn : 0 ≤ n := hm.trans hmn
  refine ⟨max 4 (min 22 (Real.sqrt ((m : ℚ) : ℝ) * 0.9)),
    max 4 (min 22 (Real.sqrt ((n : ℚ) : ℝ) * 0.9)), ?_, ?_, ?_⟩
  · show radiusOf p = _
    rw [radiusOf_eq_of_nonneg p (by rw [hem]; exact hm), hem]
  · show radiusOf q = _
    rw [radiusOf_eq_of_nonneg q (by rw [hen]; exact hn), hen]
  · have hs : Real.sqrt ((m : ℚ) : ℝ) ≤ Real.sqrt ((n : ℚ) : ℝ) :=
      Real.sqrt_le_sqrt (by exact_mod_cast hmn)
    exact max_le_max le_rfl (min_le_min le_rfl
      (mul_le_mul_of_nonneg_right hs (by norm_num)))

/-- Witness for C9 at counts 0 and 100. -/
theorem C9_radius_monotone_witness :
    ∃ rm rn : ℝ, (schoolStyle ⟨none, some (JSNum.finite 0), none⟩).radius = some rm ∧
      (schoolStyle ⟨none, some (JSNum.finite 100), none⟩).radius = some rn ∧ rm ≤ rn :=
  C9_radius_monotone ⟨none, some (JSNum.finite 0), none⟩
    ⟨none, some (JSNum.finite 100), none⟩ 0 100 rfl rfl (by norm_num) (by norm_num)

/-- C10: the fill colour is decided by a case-insensitive substring test for
privat, orange exactly when some substring of the ownership string
lowercases to privat and blue otherwise. -/
theorem C10_fill_by_case_insensitive_containment (p : SchoolProps) (s : String)
    (h : p.eierforhold = some s) :
    ((schoolStyle p).fillColor = "rgba(255,165,0,0.9)" ↔ hasPrivatAnyCase s) ∧
    (¬ hasPrivatAnyCase s → (schoolStyle p).fillColor = "rgba(0,140,255,0.9)") := by
  have key : isPrivat p = true ↔ hasPrivatAnyCase s := by
    unfold isPrivat eierOf
    rw [h]
    show jsIncludes (jsToLower s) "privat" = true ↔ _
    rw [jsIncludes, hasSubList_iff,
      show (jsToLower s).data = s.data.map Char.toLower from rfl]
    unfold hasPrivatAnyCase
    exact infix_lower_iff _ _
  rcases Bool.eq_false_or_eq_true (isPrivat p) with hb | hb
  · have hfill : (schoolStyle p).fillColor = "rgba(255,165,0,0.9)" := by
      simp [schoolStyle, fillColorOf, hb]
    exact ⟨⟨fun _ => key.mp hb, fun _ => hfill⟩, fun hnp => absurd (key.mp hb) hnp⟩
  · have hfill : (schoolStyle p).fillColor = "rgba(0,140,255,0.9)" := by
      simp [schoolStyle, fillColorOf, hb]
    refine ⟨⟨fun ho => ?_, fun hpriv => ?_⟩, fun _ => hfill⟩
    · rw [hfill] at ho
      exact absurd ho (by decide)
    · have hT := key.mpr hpriv
      rw [hb] at hT
      exact Bool.noConfusion hT

/-- Witness for C10: a capitalised Privat gets the orange fill and an
ownership string not containing privat gets the blue fill. -/
theorem C10_fill_by_case_insensitive_containment_witness :
    (schoolStyle ⟨none, none, some "Privat"⟩).fillColor = "rgba(255,165,0,0.9)" ∧
    (schoolStyle ⟨none, none, some "kommunal"⟩).fillColor = "rgba(0,140,255,0.9)" :=
  ⟨((C10_fill_by_case_insensitive_containment ⟨none, none, some "Privat"⟩
      "Privat" rfl).1).mpr ⟨"Privat".data, List.infix_rfl, by decide⟩,
   (C10_fill_by_case_insensitive_containment ⟨none, none, some "kommunal"⟩
      "kommunal" rfl).2 (by
        intro hpriv
        have h1 : hasSubList ("kommunal".data.map Char.toLower) "privat".data = true := by
          rw [hasSubList_iff]
          exact (infix_lower_iff _ _).mpr hpriv
        exact absurd h1 (by decide))⟩
